import Mathlib

/-!
Shallow embedding of the correlation and resilient-ingestion engine of
`cybersecurity_data_updater.py` (class `CybersecurityDataUpdater`), together
with theorems checking the specification of the engine against the code.

The embedding models JSON records as Lean structures whose fields are
`Option`-valued exactly where the Python code accesses them through
`dict.get` with a default (a `none` field models an absent key).  Python
operations that can raise (`list[0]` on an empty list, `dict[key]` on a
missing key) are modelled in the `Except String` monad, so a raised
exception surfaces as `Except.error`.
-/

set_option maxRecDepth 4096

/-- Does the needle occur at the head of the haystack (character lists)? -/
def leadsWith : List Char → List Char → Bool
  | [], _ => true
  | _ :: _, [] => false
  | n :: ns, h :: hs => n == h && leadsWith ns hs

/-- Does the needle occur anywhere in the haystack (character lists)?
Models the Python substring test `needle in haystack`. -/
def occursIn (needle : List Char) : List Char → Bool
  | [] => leadsWith needle []
  | h :: hs => leadsWith needle (h :: hs) || occursIn needle hs

/-- String-level substring containment: `strContains hay needle` models the
Python expression `needle in hay`. -/
def strContains (hay needle : String) : Bool :=
  occursIn needle.toList hay.toList

/-- One entry of a STIX `external_references` array.  Each field is optional
because the code reads it with `ref.get(...)`. -/
structure ExtRef where
  source_name : Option String
  external_id : Option String
deriving DecidableEq, Inhabited

/-- One entry of a STIX `kill_chain_phases` array.  The code reads
`phase['phase_name']` by direct indexing, which raises when the key is
absent, hence the field stays optional here. -/
structure StixPhase where
  phase_name : Option String
deriving DecidableEq, Inhabited

/-- A record of a STIX `objects` array, restricted to the keys the updater
reads.  A `none` field models an absent key. -/
structure StixObject where
  type : Option String
  name : Option String
  description : Option String
  kill_chain_phases : Option (List StixPhase)
  id : Option String
  created : Option String
  modified : Option String
  external_references : Option (List ExtRef)
deriving DecidableEq, Inhabited

/-- A catalog document: the updater only reads the `objects` key (guarded by
`if 'objects' in data`), so the rest of the JSON object is irrelevant. -/
structure StixDoc where
  objects : Option (List StixObject)
deriving DecidableEq, Inhabited

/-- Normalized technique record, as built by `parse_attack_techniques`. -/
structure Technique where
  id : String
  name : String
  description : String
  domain : String
  tactics : List String
  stix_id : String
  created : String
  modified : String
  external_references : List ExtRef
deriving DecidableEq, Inhabited

/-- Normalized mitigation record, as built by `parse_attack_mitigations`. -/
structure Mitigation where
  id : String
  name : String
  description : String
  domain : String
  stix_id : String
  created : String
  modified : String
  external_references : List ExtRef
deriving DecidableEq, Inhabited

/-- Normalized pattern record, as built by `parse_capec_patterns`. -/
structure Pattern where
  id : String
  name : String
  description : String
  stix_id : String
  created : String
  modified : String
  external_references : List ExtRef
deriving DecidableEq, Inhabited

/-- Monadic map over a list in the `Except` monad, modelling a Python `for`
loop that appends to an accumulator and may raise: the first raised
exception aborts the whole loop. -/
def exceptMapList (f : α → Except String β) : List α → Except String (List β)
  | [] => .ok []
  | a :: as => do
    let b ← f a
    let bs ← exceptMapList f as
    .ok (b :: bs)

/-- Models `obj.get('external_references', [{}])[0].get('external_id', '')`:
when the key is absent the default `[{}]` makes the result the empty string;
when the key is present with an empty list, `[0]` raises `IndexError`;
otherwise the first entry is read with default `''`. -/
def extractFirstExtId (refs : Option (List ExtRef)) : Except String String :=
  match refs with
  | none => .ok ""
  | some [] => .error "IndexError: list index out of range"
  | some (r :: _) => .ok (r.external_id.getD "")

/-- Models the comprehension
`[phase['phase_name'] for phase in obj.get('kill_chain_phases', [])]`:
direct indexing `phase['phase_name']` raises `KeyError` when that key is
absent from an entry. -/
def extractTactics (phases : Option (List StixPhase)) : Except String (List String) :=
  exceptMapList
    (fun ph =>
      match ph.phase_name with
      | none => .error "KeyError: phase_name"
      | some s => .ok s)
    (phases.getD [])

/-- Builds one technique record from one STIX object, in the field order of
the Python dict literal (the `id` extraction runs before the `tactics`
comprehension, so its exception fires first). -/
def mkTechnique (domain : String) (obj : StixObject) : Except String Technique := do
  let tid ← extractFirstExtId obj.external_references
  let tactics ← extractTactics obj.kill_chain_phases
  .ok { id := tid
        name := obj.name.getD ""
        description := obj.description.getD ""
        domain := domain
        tactics := tactics
        stix_id := obj.id.getD ""
        created := obj.created.getD ""
        modified := obj.modified.getD ""
        external_references := obj.external_references.getD [] }

/-- Techniques contributed by one domain document: the records of declared
type `attack-pattern`. -/
def parseDomainTechniques (domain : String) (data : StixDoc) : Except String (List Technique) :=
  match data.objects with
  | none => .ok []
  | some objs =>
      exceptMapList (mkTechnique domain)
        (objs.filter (fun o => o.type == some "attack-pattern"))

/-- Embedding of `parse_attack_techniques`: iterate the domain → document
association list in order and concatenate each domain contribution. -/
def parse_attack_techniques : List (String × StixDoc) → Except String (List Technique)
  | [] => .ok []
  | (domain, data) :: rest => do
    let ts ← parseDomainTechniques domain data
    let rs ← parse_attack_techniques rest
    .ok (ts ++ rs)

/-- Builds one mitigation record from one STIX object. -/
def mkMitigation (domain : String) (obj : StixObject) : Except String Mitigation := do
  let mid ← extractFirstExtId obj.external_references
  .ok { id := mid
        name := obj.name.getD ""
        description := obj.description.getD ""
        domain := domain
        stix_id := obj.id.getD ""
        created := obj.created.getD ""
        modified := obj.modified.getD ""
        external_references := obj.external_references.getD [] }

/-- Mitigations contributed by one domain document: the records of declared
type `course-of-action`. -/
def parseDomainMitigations (domain : String) (data : StixDoc) : Except String (List Mitigation) :=
  match data.objects with
  | none => .ok []
  | some objs =>
      exceptMapList (mkMitigation domain)
        (objs.filter (fun o => o.type == some "course-of-action"))

/-- Embedding of `parse_attack_mitigations`. -/
def parse_attack_mitigations : List (String × StixDoc) → Except String (List Mitigation)
  | [] => .ok []
  | (domain, data) :: rest => do
    let ms ← parseDomainMitigations domain data
    let rs ← parse_attack_mitigations rest
    .ok (ms ++ rs)

/-- Models the loop that scans a pattern record's external references for the
first entry whose `source_name` is `capec` and reads its `external_id` with
default `''`; when no entry matches, the identifier stays `''`.  This loop
only uses `dict.get`, so it never raises. -/
def extractCapecId (refs : List ExtRef) : String :=
  match refs.find? (fun r => r.source_name == some "capec") with
  | some r => r.external_id.getD ""
  | none => ""

/-- Embedding of `parse_capec_patterns`: total, because every record access
in it goes through `dict.get` with a default. -/
def parse_capec_patterns (capec_data : StixDoc) : List Pattern :=
  match capec_data.objects with
  | none => []
  | some objs =>
      (objs.filter (fun o => o.type == some "attack-pattern")).map
        (fun obj =>
          { id := extractCapecId (obj.external_references.getD [])
            name := obj.name.getD ""
            description := obj.description.getD ""
            stix_id := obj.id.getD ""
            created := obj.created.getD ""
            modified := obj.modified.getD ""
            external_references := obj.external_references.getD [] })

/-- Embedding of the static `self.stride_capec_mappings` table: category
name, description and the curated CAPEC identifier list, in dict insertion
order and with every duplicate of the source literal preserved. -/
def stride_capec_mappings : List (String × String × List String) :=
  [ ("Spoofing", "Identity falsification attacks",
      [ "CAPEC-148", "CAPEC-145", "CAPEC-218", "CAPEC-502", "CAPEC-627", "CAPEC-628",
        "CAPEC-151", "CAPEC-194", "CAPEC-275", "CAPEC-543", "CAPEC-544", "CAPEC-598", "CAPEC-633",
        "CAPEC-195", "CAPEC-587", "CAPEC-599",
        "CAPEC-473", "CAPEC-459", "CAPEC-474", "CAPEC-475", "CAPEC-476", "CAPEC-477",
        "CAPEC-479", "CAPEC-485",
        "CAPEC-89", "CAPEC-98", "CAPEC-163", "CAPEC-164", "CAPEC-656",
        "CAPEC-154", "CAPEC-159", "CAPEC-132", "CAPEC-38", "CAPEC-471", "CAPEC-641",
        "CAPEC-141", "CAPEC-51", "CAPEC-142",
        "CAPEC-616", "CAPEC-505", "CAPEC-611", "CAPEC-615", "CAPEC-617", "CAPEC-630",
        "CAPEC-631", "CAPEC-632", "CAPEC-667",
        "CAPEC-173", "CAPEC-103", "CAPEC-181", "CAPEC-222", "CAPEC-501", "CAPEC-504",
        "CAPEC-654", "CAPEC-506",
        "CAPEC-416", "CAPEC-407", "CAPEC-383", "CAPEC-412", "CAPEC-413", "CAPEC-414",
        "CAPEC-415", "CAPEC-417", "CAPEC-418", "CAPEC-420", "CAPEC-421", "CAPEC-422",
        "CAPEC-423", "CAPEC-424", "CAPEC-425", "CAPEC-426", "CAPEC-427", "CAPEC-428",
        "CAPEC-429", "CAPEC-433", "CAPEC-434", "CAPEC-435",
        "CAPEC-389" ]),
    ("Tampering", "Data or system integrity violations",
      [ "CAPEC-271", "CAPEC-267", "CAPEC-39", "CAPEC-75", "CAPEC-123", "CAPEC-153",
        "CAPEC-272", "CAPEC-273", "CAPEC-74", "CAPEC-221", "CAPEC-459",
        "CAPEC-132", "CAPEC-29", "CAPEC-653", "CAPEC-635", "CAPEC-649", "CAPEC-471",
        "CAPEC-204", "CAPEC-17", "CAPEC-649",
        "CAPEC-242", "CAPEC-23", "CAPEC-250", "CAPEC-77", "CAPEC-245", "CAPEC-83",
        "CAPEC-85", "CAPEC-89", "CAPEC-86", "CAPEC-113", "CAPEC-152", "CAPEC-263",
        "CAPEC-81", "CAPEC-78", "CAPEC-146", "CAPEC-248", "CAPEC-13",
        "CAPEC-522", "CAPEC-439", "CAPEC-440", "CAPEC-441", "CAPEC-636", "CAPEC-637",
        "CAPEC-638", "CAPEC-562" ]),
    ("Repudiation", "Denial of actions or hiding evidence",
      [ "CAPEC-268", "CAPEC-93", "CAPEC-93", "CAPEC-268",
        "CAPEC-578", "CAPEC-205", "CAPEC-550", "CAPEC-97",
        "CAPEC-649", "CAPEC-26" ]),
    ("Information Disclosure", "Unauthorized information access or leakage",
      [ "CAPEC-117", "CAPEC-157", "CAPEC-158", "CAPEC-609", "CAPEC-610", "CAPEC-612",
        "CAPEC-613", "CAPEC-614", "CAPEC-651", "CAPEC-651",
        "CAPEC-124", "CAPEC-134", "CAPEC-233", "CAPEC-116", "CAPEC-37", "CAPEC-203",
        "CAPEC-189", "CAPEC-188", "CAPEC-651", "CAPEC-189",
        "CAPEC-208", "CAPEC-224", "CAPEC-95", "CAPEC-116", "CAPEC-37", "CAPEC-118",
        "CAPEC-224", "CAPEC-116", "CAPEC-95",
        "CAPEC-509", "CAPEC-560", "CAPEC-560", "CAPEC-509" ]),
    ("Denial of Service", "Service availability attacks",
      [ "CAPEC-119", "CAPEC-125", "CAPEC-130", "CAPEC-131", "CAPEC-147", "CAPEC-229",
        "CAPEC-230", "CAPEC-231", "CAPEC-482", "CAPEC-486", "CAPEC-487", "CAPEC-488",
        "CAPEC-489", "CAPEC-490", "CAPEC-491", "CAPEC-492", "CAPEC-493", "CAPEC-494",
        "CAPEC-495", "CAPEC-496", "CAPEC-497", "CAPEC-498", "CAPEC-499",
        "CAPEC-21", "CAPEC-482", "CAPEC-486", "CAPEC-487", "CAPEC-488", "CAPEC-489",
        "CAPEC-490", "CAPEC-491", "CAPEC-492", "CAPEC-493", "CAPEC-494", "CAPEC-495",
        "CAPEC-496", "CAPEC-497", "CAPEC-498", "CAPEC-499",
        "CAPEC-147", "CAPEC-229", "CAPEC-230", "CAPEC-231",
        "CAPEC-599", "CAPEC-600", "CAPEC-601", "CAPEC-602", "CAPEC-603", "CAPEC-604",
        "CAPEC-605", "CAPEC-606", "CAPEC-607", "CAPEC-608" ]),
    ("Elevation of Privilege", "Unauthorized access escalation",
      [ "CAPEC-122", "CAPEC-58", "CAPEC-180", "CAPEC-21", "CAPEC-122", "CAPEC-207",
        "CAPEC-122", "CAPEC-207",
        "CAPEC-36", "CAPEC-36", "CAPEC-560", "CAPEC-16", "CAPEC-554", "CAPEC-593",
        "CAPEC-233", "CAPEC-69", "CAPEC-40", "CAPEC-104", "CAPEC-233", "CAPEC-69",
        "CAPEC-40", "CAPEC-104",
        "CAPEC-21", "CAPEC-21", "CAPEC-102", "CAPEC-102" ]) ]

/-- Embedding of `stride_keywords.get(category, [])`: the per-category
keyword lists of the local dict in `create_stride_mapping_with_real_data`,
with `[]` for any other key. -/
def strideKeywords (category : String) : List String :=
  if category == "Spoofing" then
    ["spoof", "fake", "impersonat", "masquerad", "phish", "identity", "forge"]
  else if category == "Tampering" then
    ["tamper", "modify", "alter", "corrupt", "manipulat", "inject", "poison"]
  else if category == "Repudiation" then
    ["log", "audit", "trace", "evidence", "timestamp", "non-repudiation", "cover"]
  else if category == "Information Disclosure" then
    ["disclosure", "leak", "exfiltrat", "credential", "sensitive", "data", "harvest"]
  else if category == "Denial of Service" then
    ["denial", "flood", "exhaust", "resource", "availability", "crash", "overwhelm"]
  else if category == "Elevation of Privilege" then
    ["privilege", "escalat", "admin", "root", "elevat", "bypass", "unauthorized"]
  else []

/-- Pattern summary emitted per curated match: identifier, name, and the
description truncated to 200 characters with an ellipsis when longer. -/
structure PatternSummary where
  id : String
  name : String
  description : String
deriving DecidableEq, Inhabited

/-- Models the truncation expression
`pattern['description'][:200] + '...' if len(pattern['description']) > 200 else pattern['description']`. -/
def truncateDescription (s : String) : String :=
  if s.length > 200 then (s.take 200) ++ "..." else s

/-- The summary dict appended for a matched pattern. -/
def patternSummary (p : Pattern) : PatternSummary :=
  { id := p.id, name := p.name, description := truncateDescription p.description }

/-- Technique summary emitted per keyword match. -/
structure TechniqueSummary where
  id : String
  name : String
  domain : String
  tactics : List String
deriving DecidableEq, Inhabited

/-- The summary dict appended for a matched technique. -/
def techniqueSummary (t : Technique) : TechniqueSummary :=
  { id := t.id, name := t.name, domain := t.domain, tactics := t.tactics }

/-- Models the dict comprehension
`{pattern['id']: pattern for pattern in patterns if pattern['id']}`:
entries with an empty identifier are excluded, and a duplicate identifier
overwrites the earlier entry, so lookup returns the LAST pattern of the
filtered list with the given identifier. -/
def capecById (patterns : List Pattern) (cid : String) : Option Pattern :=
  ((patterns.filter (fun p => p.id != "")).reverse).find? (fun p => p.id == cid)

/-- Models the per-category pattern loop: for each curated identifier found
in the index, append its summary.  The source also accumulates a local set
`found_capec_ids` in this loop, but never reads it back, so the set has no
effect on the output and is not modelled. -/
def matchCapecPatterns (lookup : String → Option Pattern) (capec_ids : List String) :
    List PatternSummary :=
  capec_ids.filterMap (fun cid => (lookup cid).map patternSummary)

/-- Models Python `str.lower()` by lowercasing each character of the string
(the technique keywords are all basic latin, for which the two agree). -/
def lowerStr (s : String) : String :=
  ⟨s.data.map Char.toLower⟩

/-- Models the per-category technique test: lowercase
`description + ' ' + name` and ask whether any category keyword occurs in it
as a substring. -/
def techniqueMatches (keywords : List String) (t : Technique) : Bool :=
  keywords.any (fun k => strContains (lowerStr (t.description ++ " " ++ t.name)) k)

/-- One category entry of the STRIDE mapping output. -/
structure CategoryMapping where
  description : String
  capec_patterns : List PatternSummary
  capec_count : Nat
  attack_techniques : List TechniqueSummary
  mapping_source : String
deriving DecidableEq, Inhabited

/-- The body of the per-category loop of
`create_stride_mapping_with_real_data`. -/
def strideCategoryEntry (lookup : String → Option Pattern) (techniques : List Technique)
    (descr : String) (capec_ids : List String) (keywords : List String) : CategoryMapping :=
  let pats := matchCapecPatterns lookup capec_ids
  { description := descr
    capec_patterns := pats
    capec_count := pats.length
    attack_techniques := (techniques.filter (techniqueMatches keywords)).map techniqueSummary
    mapping_source := "Official community mapping (ostering.com)" }

/-- Embedding of `create_stride_mapping_with_real_data`: build the pattern
index once, then process the six categories of the static table in order. -/
def create_stride_mapping_with_real_data (techniques : List Technique)
    (patterns : List Pattern) : List (String × CategoryMapping) :=
  let lookup := capecById patterns
  stride_capec_mappings.map
    (fun e => (e.1, strideCategoryEntry lookup techniques e.2.1 e.2.2 (strideKeywords e.1)))

/-- Outcome of one `download_with_retry` call: a returned document, the
implicit `None` return when the loop body never runs, or a propagated
exception after the last attempt. -/
inductive FetchOutcome (D : Type) where
  | doc : D → FetchOutcome D
  | noneReturned : FetchOutcome D
  | raised : FetchOutcome D
deriving DecidableEq

/-- Trace of one `download_with_retry` call: its outcome, how many requests
were issued, and the list of backoff sleeps in order. -/
structure RetryTrace (D : Type) where
  outcome : FetchOutcome D
  attempts : Nat
  sleeps : List Nat
deriving DecidableEq

/-- The retry loop body, with `remaining` attempts left and `attempt` the
zero-based index of the next attempt.  The network is modelled by `net`,
giving for each attempt index either a parsed document or a request
exception.  A failure on the last remaining attempt re-raises; any earlier
failure sleeps `2 ^ attempt` time units and retries. -/
def retryLoop (net : Nat → Option D) : Nat → Nat → RetryTrace D
  | 0, _ => { outcome := .noneReturned, attempts := 0, sleeps := [] }
  | r + 1, attempt =>
      match net attempt with
      | some d => { outcome := .doc d, attempts := 1, sleeps := [] }
      | none =>
          if r = 0 then
            { outcome := .raised, attempts := 1, sleeps := [] }
          else
            let rest := retryLoop net r (attempt + 1)
            { outcome := rest.outcome
              attempts := rest.attempts + 1
              sleeps := 2 ^ attempt :: rest.sleeps }

/-- Embedding of `download_with_retry`: `for attempt in range(max_retries)`
iterates `max_retries` times when positive and zero times otherwise (the
parameter is a Python int, so non-positive values give an empty range), and
when the loop finishes without returning, the function returns `None`. -/
def download_with_retry (net : Nat → Option D) (max_retries : Int) : RetryTrace D :=
  retryLoop net max_retries.toNat 0

/-- Raw d3fend document, kept abstract as the entries of a JSON object: the
updater never inspects it beyond the truthiness test `bool(d3fend_data)`. -/
def D3Doc : Type := List (String × String)

/-- Per-source fetch results for one run: `none` means that source exhausted
all its retry attempts (its `download_with_retry` raised). -/
structure SourceOutcomes where
  attack_enterprise : Option StixDoc
  attack_mobile : Option StixDoc
  attack_ics : Option StixDoc
  capec_stix : Option StixDoc
  d3fend : Option D3Doc

/-- Embedding of `fetch_attack_data`: iterate the three `attack` sources of
`self.sources` in dict order; a source whose download raises is logged and
skipped, so it contributes no entry to the returned dict. -/
def fetch_attack_data (o : SourceOutcomes) : List (String × StixDoc) :=
  (match o.attack_enterprise with
   | some d => [("attack_enterprise", d)]
   | none => []) ++
  (match o.attack_mobile with
   | some d => [("attack_mobile", d)]
   | none => []) ++
  (match o.attack_ics with
   | some d => [("attack_ics", d)]
   | none => [])

/-- Embedding of `fetch_capec_data`: on a raised download the handler
returns `{}`, a JSON object with no `objects` key. -/
def fetch_capec_data (o : SourceOutcomes) : StixDoc :=
  o.capec_stix.getD { objects := none }

/-- Embedding of `fetch_d3fend_data`: on a raised download the handler
returns `{}`, the empty JSON object. -/
def fetch_d3fend_data (o : SourceOutcomes) : D3Doc :=
  o.d3fend.getD []

/-- The consolidated document, restricted to the fields the engine computes
from its inputs; the wall-clock `generated_at` timestamp and the constant
version and source strings are not modelled. -/
structure Consolidated where
  attack_techniques_count : Nat
  attack_mitigations_count : Nat
  capec_patterns_count : Nat
  d3fend_available : Bool
  stride_categories : Nat
  stride_mapping : List (String × CategoryMapping)
  total_capec_mapped : Nat
  total_attack_mapped : Nat
  coverage_by_category : List (String × Nat × Nat)
  sample_attack_techniques : List Technique
  sample_attack_mitigations : List Mitigation
  sample_capec_patterns : List Pattern

/-- The consolidated dict literal of `generate_consolidated_mapping`, as a
function of the parsed lists and the d3fend truthiness. -/
def buildConsolidated (techniques : List Technique) (mitigations : List Mitigation)
    (capec_patterns : List Pattern) (d3fend_data : D3Doc) : Consolidated :=
  let sm := create_stride_mapping_with_real_data techniques capec_patterns
  { attack_techniques_count := techniques.length
    attack_mitigations_count := mitigations.length
    capec_patterns_count := capec_patterns.length
    d3fend_available := !d3fend_data.isEmpty
    stride_categories := stride_capec_mappings.length
    stride_mapping := sm
    total_capec_mapped := (sm.map (fun e => e.2.capec_patterns.length)).sum
    total_attack_mapped := (sm.map (fun e => e.2.attack_techniques.length)).sum
    coverage_by_category :=
      sm.map (fun e => (e.1, e.2.capec_patterns.length, e.2.attack_techniques.length))
    sample_attack_techniques := techniques.take 10
    sample_attack_mitigations := mitigations.take 10
    sample_capec_patterns := capec_patterns.take 10 }

/-- Embedding of `generate_consolidated_mapping`: fetch every source (each
failure degraded per source by the fetch wrappers above), normalize, then
correlate; an exception raised while normalizing propagates and aborts the
run. -/
def generate_consolidated_mapping (o : SourceOutcomes) : Except String Consolidated := do
  let attack_data := fetch_attack_data o
  let capec_data := fetch_capec_data o
  let d3fend_data := fetch_d3fend_data o
  let techniques ← parse_attack_techniques attack_data
  let mitigations ← parse_attack_mitigations attack_data
  let capec_patterns := parse_capec_patterns capec_data
  .ok (buildConsolidated techniques mitigations capec_patterns d3fend_data)

/-- A one-element pattern catalog defining `CAPEC-93`, whose identifier the
curated Repudiation list contains twice. -/
def p93 : Pattern :=
  { id := "CAPEC-93", name := "Log Injection-Tampering-Forging",
    description := "An attacker writes false entries into a log file.",
    stix_id := "attack-pattern--0001", created := "", modified := "",
    external_references := [] }

/-- The one-element pattern catalog of the specification scenario for the
duplicate-collapse invariant. -/
def p148 : Pattern :=
  { id := "CAPEC-148", name := "Content Spoofing", description := "",
    stix_id := "attack-pattern--0002", created := "", modified := "",
    external_references := [] }

/-- Matching predicate written exactly as claim C3 words it: the lowercased
concatenation of the name and the description (no separator, name first)
contains some category keyword.  This is the claim-side definition, kept to
compare against the code-side `techniqueMatches`. -/
def claimedTechniqueMatch (keywords : List String) (t : Technique) : Bool :=
  keywords.any (fun k => strContains (lowerStr (t.name ++ t.description)) k)

/-- A technique whose name-description concatenation spells the Spoofing
keyword `fake` across the boundary of the two fields. -/
def tFaKe : Technique :=
  { id := "T9999", name := "fa", description := "ke", domain := "attack_enterprise",
    tactics := [], stix_id := "", created := "", modified := "",
    external_references := [] }

/-- An example technique whose description contains the Spoofing keyword
`phish`. -/
def tSpoofEx : Technique :=
  { id := "T1566", name := "Phishing",
    description := "Adversaries may send phishing messages",
    domain := "attack_enterprise", tactics := ["initial-access"],
    stix_id := "", created := "", modified := "", external_references := [] }

/-- The Spoofing entry of the output on the example technique list. -/
def spoofingMappingEx : CategoryMapping :=
  ((create_stride_mapping_with_real_data [tSpoofEx] []).head?.map Prod.snd).getD default

/-- A technique record whose `external_references` key is present but holds
an empty list. -/
def emptyRefsTechObj : StixObject :=
  { type := some "attack-pattern", name := some "Example", description := some "",
    kill_chain_phases := some [], id := some "attack-pattern--0003",
    created := none, modified := none, external_references := some [] }

/-- A mitigation record whose `external_references` key is present but holds
an empty list. -/
def emptyRefsMitObj : StixObject :=
  { type := some "course-of-action", name := some "Mit", description := none,
    kill_chain_phases := none, id := none, created := none, modified := none,
    external_references := some [] }

/-- The same technique record with the `external_references` key absent. -/
def absentRefsTechObj : StixObject :=
  { type := some "attack-pattern", name := some "Example", description := some "",
    kill_chain_phases := some [], id := some "attack-pattern--0003",
    created := none, modified := none, external_references := none }

/-- A well-formed technique record next to the malformed one. -/
def wellFormedObj : StixObject :=
  { type := some "attack-pattern", name := some "Valid Technique",
    description := some "Runs commands", kill_chain_phases := some [{ phase_name := some "execution" }],
    id := some "attack-pattern--0004", created := some "2020", modified := some "2021",
    external_references := some [{ source_name := some "mitre-attack", external_id := some "T1001" }] }

/-- A technique record whose kill-chain-phase entry lacks `phase_name`. -/
def malformedPhaseObj : StixObject :=
  { type := some "attack-pattern", name := some "Broken", description := some "",
    kill_chain_phases := some [{ phase_name := none }],
    id := some "attack-pattern--0005", created := none, modified := none,
    external_references := some [{ source_name := some "mitre-attack", external_id := some "T1002" }] }

/-- The consolidated document a run produces once its technique and
mitigation parses are known. -/
def consolidatedOf (o : SourceOutcomes) (ts : List Technique) (ms : List Mitigation) :
    Consolidated :=
  buildConsolidated ts ms (parse_capec_patterns (fetch_capec_data o)) (fetch_d3fend_data o)

/-- The normalized technique the example well-formed record produces. -/
def techWF : Technique :=
  { id := "T1001", name := "Valid Technique", description := "Runs commands",
    domain := "attack_enterprise", tactics := ["execution"],
    stix_id := "attack-pattern--0004", created := "2020", modified := "2021",
    external_references := [{ source_name := some "mitre-attack", external_id := some "T1001" }] }

/-- A run in which the pattern source and the optional source both failed
all their retries while the attack sources answered. -/
def oCapecFail : SourceOutcomes :=
  { attack_enterprise := some { objects := some [wellFormedObj] },
    attack_mobile := some { objects := none },
    attack_ics := some { objects := none },
    capec_stix := none,
    d3fend := none }

/-- An example pattern-catalog record carrying a `capec` reference. -/
def capecObjEx : StixObject :=
  { type := some "attack-pattern", name := some "Content Spoofing",
    description := some "An adversary modifies content.",
    kill_chain_phases := none, id := some "attack-pattern--0006",
    created := none, modified := none,
    external_references := some [{ source_name := some "capec", external_id := some "CAPEC-148" }] }

/-- A fully successful run over small documents. -/
def oSampleEx : SourceOutcomes :=
  { attack_enterprise := some { objects := some [wellFormedObj] },
    attack_mobile := some { objects := none },
    attack_ics := none,
    capec_stix := some { objects := some [capecObjEx] },
    d3fend := some [("defend", "x")] }

/-- Success case of the retry loop: with `k` initial failures and a success
on the following attempt, the loop stops after `k + 1` requests, having
slept `2 ^ (a + i)` after the i-th failed attempt. -/
theorem retryLoop_success (net : Nat → Option D) (d : D) (k : Nat) :
    ∀ (r a : Nat), k < r → (∀ i, i < k → net (a + i) = none) → net (a + k) = some d →
    retryLoop net r a =
      { outcome := .doc d, attempts := k + 1,
        sleeps := (List.range k).map (fun i => 2 ^ (a + i)) } := by
  induction k with
  | zero =>
      intro r a hk hf hs
      obtain ⟨r1, rfl⟩ : ∃ r1, r = r1 + 1 := ⟨r - 1, by omega⟩
      have hnet : net a = some d := by simpa using hs
      simp [retryLoop, hnet]
  | succ k ih =>
      intro r a hk hf hs
      obtain ⟨r1, rfl⟩ : ∃ r1, r = r1 + 1 := ⟨r - 1, by omega⟩
      have hnet : net a = none := by simpa using hf 0 (by omega)
      have hr1 : r1 ≠ 0 := by omega
      have hrest := ih r1 (a + 1) (by omega)
        (fun i hi => by
          have := hf (i + 1) (by omega)
          simpa [Nat.add_assoc, Nat.add_comm 1 i] using this)
        (by
          have := hs
          simpa [Nat.add_assoc, Nat.add_comm 1 k] using this)
      simp only [retryLoop, hnet, hr1, if_false, hrest, RetryTrace.mk.injEq, true_and]
      rw [List.range_succ_eq_map, List.map_cons, List.map_map]
      have harg : ((fun i => 2 ^ (a + i)) ∘ Nat.succ) = fun i => 2 ^ (a + 1 + i) := by
        funext i
        have : a + Nat.succ i = a + 1 + i := by omega
        simp [Function.comp, this]
      simp [harg]

/-- Exhaustion case of the retry loop: with every attempt failing, the loop
issues all `r` requests, sleeps after each but the last, and re-raises. -/
theorem retryLoop_allFail (net : Nat → Option D) :
    ∀ (r a : Nat), 0 < r → (∀ i, i < r → net (a + i) = none) →
    retryLoop net r a =
      { outcome := .raised, attempts := r,
        sleeps := (List.range (r - 1)).map (fun i => 2 ^ (a + i)) } := by
  intro r
  induction r with
  | zero => intro a h; omega
  | succ r ih =>
      intro a _ hf
      have hnet : net a = none := by simpa using hf 0 (by omega)
      by_cases hr : r = 0
      · subst hr
        simp [retryLoop, hnet]
      · have hrest := ih (a + 1) (by omega)
          (fun i hi => by
            have := hf (i + 1) (by omega)
            simpa [Nat.add_assoc, Nat.add_comm 1 i] using this)
        simp only [retryLoop, hnet, hr, if_false, hrest, RetryTrace.mk.injEq, true_and]
        obtain ⟨r1, rfl⟩ : ∃ r1, r = r1 + 1 := ⟨r - 1, by omega⟩
        simp only [Nat.add_sub_cancel]
        rw [List.range_succ_eq_map, List.map_cons, List.map_map]
        have harg : ((fun i => 2 ^ (a + i)) ∘ Nat.succ) = fun i => 2 ^ (a + 1 + i) := by
          funext i
          have : a + Nat.succ i = a + 1 + i := by omega
          simp [Function.comp, this]
        simp [harg]

/-- C4: with maximum attempt count `n`, attempt 1 runs immediately; a success
on the zero-based attempt `k` returns that document after `k + 1` requests
with backoff waits `2 ^ 0, ..., 2 ^ (k - 1)` and no further attempt; when all
`n` attempts fail, the call fails (the last request exception is re-raised)
after `n` requests. -/
theorem download_with_retry_backoff_spec (net : Nat → Option D) (n k : Nat) (d : D) :
    (k < n → (∀ i, i < k → net i = none) → net k = some d →
      download_with_retry net (n : Int) =
        { outcome := .doc d, attempts := k + 1,
          sleeps := (List.range k).map (fun i => 2 ^ i) })
    ∧ (0 < n → (∀ i, i < n → net i = none) →
      download_with_retry net (n : Int) =
        { outcome := .raised, attempts := n,
          sleeps := (List.range (n - 1)).map (fun i => 2 ^ i) }) := by
  constructor
  · intro hk hf hs
    have h := retryLoop_success net d k n 0 hk
      (fun i hi => by simpa using hf i hi) (by simpa using hs)
    simpa [download_with_retry] using h
  · intro hn hf
    have h := retryLoop_allFail net n 0 hn (fun i hi => by simpa using hf i hi)
    simpa [download_with_retry] using h

/-- Witness for C4: failures on attempts 1 and 2 then success on attempt 3
with `max_retries = 3` yield the attempt-3 document, three requests and the
two waits `2 ^ 0 = 1` and `2 ^ 1 = 2`; three failures yield a raise. -/
theorem download_with_retry_backoff_spec_witness :
    download_with_retry (fun i => if i < 2 then none else some (42 : Nat)) (3 : Int) =
      { outcome := .doc 42, attempts := 3, sleeps := [1, 2] }
    ∧ download_with_retry (fun _ => (none : Option Nat)) (3 : Int) =
      { outcome := .raised, attempts := 3, sleeps := [1, 2] } := by
  constructor
  · have h := (download_with_retry_backoff_spec
        (fun i => if i < 2 then none else some (42 : Nat)) 3 2 42).1
      (by omega) (fun i hi => by simp [hi]) rfl
    have hc : ((3 : Nat) : Int) = (3 : Int) := by norm_num
    rw [hc] at h
    rw [h]
    rfl
  · have h := (download_with_retry_backoff_spec (fun _ => (none : Option Nat)) 3 0 42).2
      (by omega) (fun i _ => rfl)
    have hc : ((3 : Nat) : Int) = (3 : Int) := by norm_num
    rw [hc] at h
    rw [h]
    rfl

/-- C9: with a non-positive maximum attempt count, the loop body never runs,
so the call issues no request, raises nothing, and falls through to the
implicit `None` return. -/
theorem download_with_retry_nonpositive_returns_none (net : Nat → Option D) (m : Int)
    (hm : m ≤ 0) :
    download_with_retry net m = { outcome := .noneReturned, attempts := 0, sleeps := [] } := by
  unfold download_with_retry
  rw [Int.toNat_of_nonpos hm]
  rfl

/-- Witness for C9 at `max_retries = -3` over a network that would answer. -/
theorem download_with_retry_nonpositive_witness :
    download_with_retry (fun _ => some (7 : Nat)) (-3 : Int) =
      { outcome := .noneReturned, attempts := 0, sleeps := [] } :=
  download_with_retry_nonpositive_returns_none (fun _ => some (7 : Nat)) (-3) (by norm_num)

/-- C8: the correlation engine is a pure function of the normalized
technique list, the normalized pattern list and the static tables baked into
`stride_capec_mappings` and `strideKeywords`, so two invocations on
identical inputs produce identical output mappings. -/
theorem create_stride_mapping_deterministic (t1 t2 : List Technique) (p1 p2 : List Pattern)
    (ht : t1 = t2) (hp : p1 = p2) :
    create_stride_mapping_with_real_data t1 p1 = create_stride_mapping_with_real_data t2 p2 := by
  rw [ht, hp]

/-- Witness for C8 at concrete equal inputs. -/
theorem create_stride_mapping_deterministic_witness :
    create_stride_mapping_with_real_data [] [] = create_stride_mapping_with_real_data [] [] :=
  create_stride_mapping_deterministic [] [] [] [] rfl rfl

/-- C1: evaluation of the code at the failing inputs.  The curated
Repudiation list contains `CAPEC-93` twice, and with a catalog defining that
pattern the emitted list holds two copies with `capec_count = 2`; likewise
the specification scenario (curated list `CAPEC-148, CAPEC-148, CAPEC-999`
against the catalog defining only `CAPEC-148`) yields two entries, not one:
the loop appends on every curated occurrence because the `found_capec_ids`
set is never consulted. -/
theorem duplicate_curated_id_duplicated_in_output :
    ((create_stride_mapping_with_real_data [] [p93]).find?
        (fun e => e.1 == "Repudiation")).map
      (fun e => (e.2.capec_patterns.map PatternSummary.id, e.2.capec_count)) =
      some (["CAPEC-93", "CAPEC-93"], 2)
    ∧ (strideCategoryEntry (capecById [p148]) [] "Identity falsification attacks"
        ["CAPEC-148", "CAPEC-148", "CAPEC-999"] (strideKeywords "Spoofing")).capec_count = 2 := by
  constructor
  · rfl
  · rfl

/-- C2: evaluation of the code at the failing input.  `CAPEC-93` occurs
twice in the curated Repudiation list, is a key of the index built from the
supplied pattern list, and is emitted twice in the Repudiation output —
once per curated occurrence, not exactly once. -/
theorem curated_id_in_index_emitted_per_occurrence :
    ((stride_capec_mappings.find? (fun e => e.1 == "Repudiation")).map
      (fun e => e.2.2.count "CAPEC-93")) = some 2
    ∧ capecById [p93] "CAPEC-93" = some p93
    ∧ ((create_stride_mapping_with_real_data [] [p93]).find?
        (fun e => e.1 == "Repudiation")).map
      (fun e => (e.2.capec_patterns.map PatternSummary.id).count "CAPEC-93") = some 2 := by
  refine ⟨rfl, rfl, rfl⟩

/-- Counterexample to C3 as stated: the lowercased concatenation of the name
`fa` and the description `ke` is `fake`, which contains the Spoofing keyword
`fake`, so the claim puts this technique in the Spoofing match list; the
code tests `description + ' ' + name` (`ke fa`), which contains no Spoofing
keyword, so its Spoofing match list is empty. -/
theorem technique_concat_claim_counterexample :
    claimedTechniqueMatch (strideKeywords "Spoofing") tFaKe = true
    ∧ ((create_stride_mapping_with_real_data [tFaKe] []).find?
        (fun e => e.1 == "Spoofing")).map (fun e => e.2.attack_techniques) = some [] := by
  constructor
  · rfl
  · rfl

/-- C3 as amended: for every category of the output, the technique-match
list is exactly the source-traversal-order filter of the techniques whose
lowercased description-space-name string contains some category keyword as a
substring (so a technique may match zero, one, or several categories
independently). -/
theorem technique_match_iff_spaced (techniques : List Technique) (patterns : List Pattern)
    (cat : String) (cm : CategoryMapping)
    (h : (cat, cm) ∈ create_stride_mapping_with_real_data techniques patterns) :
    cm.attack_techniques =
      (techniques.filter
        (fun t => (strideKeywords cat).any
          (fun k => strContains (lowerStr (t.description ++ " " ++ t.name)) k))).map
        techniqueSummary := by
  simp only [create_stride_mapping_with_real_data, stride_capec_mappings, List.map_cons,
    List.map_nil, List.mem_cons, List.not_mem_nil, or_false] at h
  rcases h with h | h | h | h | h | h <;>
    (injection h with h1 h2; subst h1; subst h2; rfl)

/-- Witness for the amended C3, at the Spoofing entry of a one-technique
run. -/
theorem technique_match_iff_spaced_witness :
    spoofingMappingEx.attack_techniques =
      ([tSpoofEx].filter
        (fun t => (strideKeywords "Spoofing").any
          (fun k => strContains (lowerStr (t.description ++ " " ++ t.name)) k))).map
        techniqueSummary :=
  technique_match_iff_spaced [tSpoofEx] [] "Spoofing" spoofingMappingEx (by decide)

/-- C5: evaluation of the code at the failing input.  A record whose
external-references list is present but empty makes `[0]` raise IndexError
in both technique and mitigation normalization (the `dict.get` default
`[{}]` only covers the absent key); only with the key absent does the record
normalize with the empty-string identifier. -/
theorem empty_external_references_raises :
    parse_attack_techniques
        [("attack_enterprise", { objects := some [emptyRefsTechObj] })] =
      .error "IndexError: list index out of range"
    ∧ parse_attack_mitigations
        [("attack_enterprise", { objects := some [emptyRefsMitObj] })] =
      .error "IndexError: list index out of range"
    ∧ parse_attack_techniques
        [("attack_enterprise", { objects := some [absentRefsTechObj] })] =
      .ok [{ id := "", name := "Example", description := "",
             domain := "attack_enterprise", tactics := [],
             stix_id := "attack-pattern--0003", created := "", modified := "",
             external_references := [] }] := by
  refine ⟨rfl, rfl, rfl⟩

/-- A list mapped through `exceptMapList` succeeded only if the function
succeeded on every element. -/
theorem exceptMapList_ok_forall (f : α → Except String β) :
    ∀ (l : List α) (bs : List β), exceptMapList f l = .ok bs →
    ∀ a ∈ l, ∃ b, f a = .ok b := by
  intro l
  induction l with
  | nil =>
      intro bs h a ha
      cases ha
  | cons x xs ih =>
      intro bs h a ha
      cases hx : f x with
      | error e =>
          rw [exceptMapList, hx] at h
          simp [Bind.bind, Except.bind] at h
      | ok b =>
          cases hrest : exceptMapList f xs with
          | error e =>
              rw [exceptMapList, hx, hrest] at h
              simp [Bind.bind, Except.bind] at h
          | ok bs1 =>
              rcases List.mem_cons.mp ha with rfl | hmem
              · exact ⟨b, hx⟩
              · exact ih bs1 hrest a hmem

/-- A successful multi-domain technique parse implies each listed domain
document parsed successfully on its own. -/
theorem parse_techniques_domains_ok :
    ∀ (l : List (String × StixDoc)) (ts : List Technique),
    parse_attack_techniques l = .ok ts →
    ∀ p ∈ l, ∃ ts1, parseDomainTechniques p.1 p.2 = .ok ts1 := by
  intro l
  induction l with
  | nil =>
      intro ts h p hp
      cases hp
  | cons x xs ih =>
      intro ts h p hp
      obtain ⟨domain, data⟩ := x
      cases hx : parseDomainTechniques domain data with
      | error e =>
          rw [parse_attack_techniques, hx] at h
          simp [Bind.bind, Except.bind] at h
      | ok ts1 =>
          cases hrest : parse_attack_techniques xs with
          | error e =>
              rw [parse_attack_techniques, hx, hrest] at h
              simp [Bind.bind, Except.bind] at h
          | ok ts2 =>
              rcases List.mem_cons.mp hp with rfl | hmem
              · exact ⟨ts1, hx⟩
              · exact ih ts2 hrest p hmem

/-- A technique record built successfully only if its kill-chain phase
comprehension succeeded. -/
theorem mkTechnique_ok_tactics (domain : String) (obj : StixObject) (t : Technique)
    (h : mkTechnique domain obj = .ok t) :
    ∃ ls, extractTactics obj.kill_chain_phases = .ok ls := by
  cases hid : extractFirstExtId obj.external_references with
  | error e =>
      rw [mkTechnique, hid] at h
      simp [Bind.bind, Except.bind] at h
  | ok tid =>
      cases htac : extractTactics obj.kill_chain_phases with
      | error e =>
          rw [mkTechnique, hid, htac] at h
          simp [Bind.bind, Except.bind] at h
      | ok ls => exact ⟨ls, rfl⟩

/-- C6 as amended: a record that lacks the expected shape does not merely
lose itself — when a technique-typed record of some listed document carries
a kill-chain-phase entry without a `phase_name` field, the whole technique
normalization of the batch raises, returning no list at all. -/
theorem malformed_phase_aborts_parse (attack_data : List (String × StixDoc))
    (domain : String) (doc : StixDoc) (objs : List StixObject) (obj : StixObject)
    (ph : StixPhase)
    (hmem : (domain, doc) ∈ attack_data) (hobjs : doc.objects = some objs)
    (hobj : obj ∈ objs) (htype : obj.type = some "attack-pattern")
    (hph : ph ∈ obj.kill_chain_phases.getD []) (hphname : ph.phase_name = none) :
    (parse_attack_techniques attack_data).toOption = none := by
  cases hres : parse_attack_techniques attack_data with
  | error e => rfl
  | ok ts =>
      exfalso
      obtain ⟨ts1, hd⟩ := parse_techniques_domains_ok attack_data ts hres (domain, doc) hmem
      rw [parseDomainTechniques] at hd
      rw [hobjs] at hd
      have hobjf : obj ∈ objs.filter (fun o => o.type == some "attack-pattern") := by
        rw [List.mem_filter]
        exact ⟨hobj, by simp [htype]⟩
      obtain ⟨t, hmk⟩ := exceptMapList_ok_forall _ _ _ hd obj hobjf
      obtain ⟨ls, htac⟩ := mkTechnique_ok_tactics domain obj t hmk
      rw [extractTactics] at htac
      obtain ⟨v, hv⟩ := exceptMapList_ok_forall _ _ _ htac ph hph
      rw [hphname] at hv
      simp at hv

/-- Counterexample to C6 as stated: a document holding one well-formed and
one malformed record (kill-chain-phase entry without `phase_name`) makes the
whole normalization raise `KeyError`, so the well-formed record is NOT
returned; alone, the well-formed record normalizes fine. -/
theorem malformed_record_aborts_batch :
    parse_attack_techniques
        [("attack_enterprise", { objects := some [wellFormedObj, malformedPhaseObj] })] =
      .error "KeyError: phase_name"
    ∧ parse_attack_techniques
        [("attack_enterprise", { objects := some [wellFormedObj] })] =
      .ok [{ id := "T1001", name := "Valid Technique", description := "Runs commands",
             domain := "attack_enterprise", tactics := ["execution"],
             stix_id := "attack-pattern--0004", created := "2020", modified := "2021",
             external_references := [{ source_name := some "mitre-attack", external_id := some "T1001" }] }] := by
  refine ⟨rfl, rfl⟩

/-- Witness for the amended C6 at the concrete malformed document. -/
theorem malformed_phase_aborts_parse_witness :
    (parse_attack_techniques
        [("attack_enterprise", { objects := some [wellFormedObj, malformedPhaseObj] })]).toOption =
      none :=
  malformed_phase_aborts_parse
    [("attack_enterprise", { objects := some [wellFormedObj, malformedPhaseObj] })]
    "attack_enterprise" { objects := some [wellFormedObj, malformedPhaseObj] }
    [wellFormedObj, malformedPhaseObj] malformedPhaseObj { phase_name := none }
    (by simp) rfl (by simp) rfl (by simp [malformedPhaseObj]) rfl

/-- Every output of a successful `exceptMapList` comes from some input
element on which the function succeeded. -/
theorem exceptMapList_ok_mem (f : α → Except String β) :
    ∀ (l : List α) (bs : List β), exceptMapList f l = .ok bs →
    ∀ b ∈ bs, ∃ a ∈ l, f a = .ok b := by
  intro l
  induction l with
  | nil =>
      intro bs h b hb
      rw [exceptMapList] at h
      cases h
      cases hb
  | cons x xs ih =>
      intro bs h b hb
      cases hx : f x with
      | error e =>
          rw [exceptMapList, hx] at h
          simp [Bind.bind, Except.bind] at h
      | ok b1 =>
          cases hrest : exceptMapList f xs with
          | error e =>
              rw [exceptMapList, hx, hrest] at h
              simp [Bind.bind, Except.bind] at h
          | ok bs1 =>
              rw [exceptMapList, hx, hrest] at h
              simp only [Bind.bind, Except.bind, Except.ok.injEq] at h
              subst h
              rcases List.mem_cons.mp hb with rfl | hmem
              · exact ⟨x, List.mem_cons_self x xs, hx⟩
              · obtain ⟨a, ha, hfa⟩ := ih bs1 hrest b hmem
                exact ⟨a, List.mem_cons_of_mem x ha, hfa⟩

/-- A technique built by `mkTechnique` carries the domain tag it was built
under. -/
theorem mkTechnique_domain (domain : String) (obj : StixObject) (t : Technique)
    (h : mkTechnique domain obj = .ok t) : t.domain = domain := by
  cases hid : extractFirstExtId obj.external_references with
  | error e =>
      rw [mkTechnique, hid] at h
      simp [Bind.bind, Except.bind] at h
  | ok tid =>
      cases htac : extractTactics obj.kill_chain_phases with
      | error e =>
          rw [mkTechnique, hid, htac] at h
          simp [Bind.bind, Except.bind] at h
      | ok ls =>
          rw [mkTechnique, hid, htac] at h
          simp only [Bind.bind, Except.bind, Except.ok.injEq] at h
          subst h
          rfl

/-- A mitigation built by `mkMitigation` carries the domain tag it was built
under. -/
theorem mkMitigation_domain (domain : String) (obj : StixObject) (m : Mitigation)
    (h : mkMitigation domain obj = .ok m) : m.domain = domain := by
  cases hid : extractFirstExtId obj.external_references with
  | error e =>
      rw [mkMitigation, hid] at h
      simp [Bind.bind, Except.bind] at h
  | ok mid =>
      rw [mkMitigation, hid] at h
      simp only [Bind.bind, Except.bind, Except.ok.injEq] at h
      subst h
      rfl

/-- Every technique of a successful multi-domain parse carries the domain
tag of one of the listed documents. -/
theorem parse_techniques_domain_mem :
    ∀ (l : List (String × StixDoc)) (ts : List Technique),
    parse_attack_techniques l = .ok ts →
    ∀ t ∈ ts, ∃ p ∈ l, t.domain = p.1 := by
  intro l
  induction l with
  | nil =>
      intro ts h t htm
      rw [parse_attack_techniques] at h
      cases h
      cases htm
  | cons x xs ih =>
      intro ts h t htm
      obtain ⟨domain, data⟩ := x
      cases hx : parseDomainTechniques domain data with
      | error e =>
          rw [parse_attack_techniques, hx] at h
          simp [Bind.bind, Except.bind] at h
      | ok ts1 =>
          cases hrest : parse_attack_techniques xs with
          | error e =>
              rw [parse_attack_techniques, hx, hrest] at h
              simp [Bind.bind, Except.bind] at h
          | ok ts2 =>
              rw [parse_attack_techniques, hx, hrest] at h
              simp only [Bind.bind, Except.bind, Except.ok.injEq] at h
              subst h
              rcases List.mem_append.mp htm with hmem | hmem
              · refine ⟨(domain, data), List.mem_cons_self _ _, ?_⟩
                rw [parseDomainTechniques] at hx
                cases hobjs : data.objects with
                | none =>
                    rw [hobjs] at hx
                    cases hx
                    cases hmem
                | some objs =>
                    rw [hobjs] at hx
                    obtain ⟨obj, _, hmk⟩ := exceptMapList_ok_mem _ _ _ hx t hmem
                    exact mkTechnique_domain domain obj t hmk
              · obtain ⟨p, hp, hd⟩ := ih ts2 hrest t hmem
                exact ⟨p, List.mem_cons_of_mem _ hp, hd⟩

/-- Every mitigation of a successful multi-domain parse carries the domain
tag of one of the listed documents. -/
theorem parse_mitigations_domain_mem :
    ∀ (l : List (String × StixDoc)) (ms : List Mitigation),
    parse_attack_mitigations l = .ok ms →
    ∀ m ∈ ms, ∃ p ∈ l, m.domain = p.1 := by
  intro l
  induction l with
  | nil =>
      intro ms h m hmm
      rw [parse_attack_mitigations] at h
      cases h
      cases hmm
  | cons x xs ih =>
      intro ms h m hmm
      obtain ⟨domain, data⟩ := x
      cases hx : parseDomainMitigations domain data with
      | error e =>
          rw [parse_attack_mitigations, hx] at h
          simp [Bind.bind, Except.bind] at h
      | ok ms1 =>
          cases hrest : parse_attack_mitigations xs with
          | error e =>
              rw [parse_attack_mitigations, hx, hrest] at h
              simp [Bind.bind, Except.bind] at h
          | ok ms2 =>
              rw [parse_attack_mitigations, hx, hrest] at h
              simp only [Bind.bind, Except.bind, Except.ok.injEq] at h
              subst h
              rcases List.mem_append.mp hmm with hmem | hmem
              · refine ⟨(domain, data), List.mem_cons_self _ _, ?_⟩
                rw [parseDomainMitigations] at hx
                cases hobjs : data.objects with
                | none =>
                    rw [hobjs] at hx
                    cases hx
                    cases hmem
                | some objs =>
                    rw [hobjs] at hx
                    obtain ⟨obj, _, hmk⟩ := exceptMapList_ok_mem _ _ _ hx m hmem
                    exact mkMitigation_domain domain obj m hmk
              · obtain ⟨p, hp, hd⟩ := ih ms2 hrest m hmem
                exact ⟨p, List.mem_cons_of_mem _ hp, hd⟩

/-- Each entry of the fetched attack dict is one of the three attack
sources, tagged with its own key. -/
theorem fetch_attack_data_fst_mem (o : SourceOutcomes) :
    ∀ p ∈ fetch_attack_data o,
      (p.1 = "attack_enterprise" ∧ o.attack_enterprise = some p.2)
      ∨ (p.1 = "attack_mobile" ∧ o.attack_mobile = some p.2)
      ∨ (p.1 = "attack_ics" ∧ o.attack_ics = some p.2) := by
  intro p hp
  unfold fetch_attack_data at hp
  rcases hen : o.attack_enterprise with _ | de <;>
    rcases hmo : o.attack_mobile with _ | dm <;>
      rcases hic : o.attack_ics with _ | di <;>
        rw [hen, hmo, hic] at hp <;> simp_all <;>
          rcases hp with rfl | rfl | rfl <;> simp

/-- With the per-domain parses successful, the run reduces to the
consolidated document built from them. -/
theorem generate_consolidated_eq (o : SourceOutcomes) (ts : List Technique)
    (ms : List Mitigation)
    (ht : parse_attack_techniques (fetch_attack_data o) = .ok ts)
    (hm : parse_attack_mitigations (fetch_attack_data o) = .ok ms) :
    generate_consolidated_mapping o =
      .ok (buildConsolidated ts ms (parse_capec_patterns (fetch_capec_data o))
        (fetch_d3fend_data o)) := by
  simp only [generate_consolidated_mapping, ht, hm, Bind.bind, Except.bind]

/-- C7: whatever subset of sources failed all their retries, the run still
produces the consolidated document (provided the surviving documents
normalize); a failed pattern source contributes no pattern and correlation
proceeds over the remaining data, a failed optional source turns the
availability flag off, and a failed attack source leaves no record tagged
with its domain. -/
theorem run_resilient_to_source_failure (o : SourceOutcomes) (ts : List Technique)
    (ms : List Mitigation)
    (ht : parse_attack_techniques (fetch_attack_data o) = .ok ts)
    (hm : parse_attack_mitigations (fetch_attack_data o) = .ok ms) :
    generate_consolidated_mapping o = .ok (consolidatedOf o ts ms)
    ∧ (o.capec_stix = none →
        parse_capec_patterns (fetch_capec_data o) = []
        ∧ (consolidatedOf o ts ms).capec_patterns_count = 0
        ∧ (consolidatedOf o ts ms).sample_capec_patterns = []
        ∧ (consolidatedOf o ts ms).stride_mapping =
            create_stride_mapping_with_real_data ts [])
    ∧ (o.d3fend = none → (consolidatedOf o ts ms).d3fend_available = false)
    ∧ (o.attack_enterprise = none →
        (∀ t ∈ ts, t.domain ≠ "attack_enterprise")
        ∧ (∀ m ∈ ms, m.domain ≠ "attack_enterprise"))
    ∧ (o.attack_mobile = none →
        (∀ t ∈ ts, t.domain ≠ "attack_mobile")
        ∧ (∀ m ∈ ms, m.domain ≠ "attack_mobile"))
    ∧ (o.attack_ics = none →
        (∀ t ∈ ts, t.domain ≠ "attack_ics")
        ∧ (∀ m ∈ ms, m.domain ≠ "attack_ics")) := by
  refine ⟨generate_consolidated_eq o ts ms ht hm, ?_, ?_, ?_, ?_, ?_⟩
  · intro hc
    have h1 : fetch_capec_data o = { objects := none } := by
      rw [fetch_capec_data, hc]
      rfl
    simp only [consolidatedOf, h1]
    exact ⟨rfl, rfl, rfl, rfl⟩
  · intro hd
    simp only [consolidatedOf, fetch_d3fend_data, hd]
    rfl
  · intro hen
    constructor
    · intro t htm
      obtain ⟨p, hpm, hdom⟩ := parse_techniques_domain_mem _ _ ht t htm
      rcases fetch_attack_data_fst_mem o p hpm with ⟨h1, h2⟩ | ⟨h1, _⟩ | ⟨h1, _⟩
      · rw [hen] at h2
        cases h2
      · rw [hdom, h1]
        decide
      · rw [hdom, h1]
        decide
    · intro m hmm
      obtain ⟨p, hpm, hdom⟩ := parse_mitigations_domain_mem _ _ hm m hmm
      rcases fetch_attack_data_fst_mem o p hpm with ⟨h1, h2⟩ | ⟨h1, _⟩ | ⟨h1, _⟩
      · rw [hen] at h2
        cases h2
      · rw [hdom, h1]
        decide
      · rw [hdom, h1]
        decide
  · intro hmo
    constructor
    · intro t htm
      obtain ⟨p, hpm, hdom⟩ := parse_techniques_domain_mem _ _ ht t htm
      rcases fetch_attack_data_fst_mem o p hpm with ⟨h1, _⟩ | ⟨h1, h2⟩ | ⟨h1, _⟩
      · rw [hdom, h1]
        decide
      · rw [hmo] at h2
        cases h2
      · rw [hdom, h1]
        decide
    · intro m hmm
      obtain ⟨p, hpm, hdom⟩ := parse_mitigations_domain_mem _ _ hm m hmm
      rcases fetch_attack_data_fst_mem o p hpm with ⟨h1, _⟩ | ⟨h1, h2⟩ | ⟨h1, _⟩
      · rw [hdom, h1]
        decide
      · rw [hmo] at h2
        cases h2
      · rw [hdom, h1]
        decide
  · intro hic
    constructor
    · intro t htm
      obtain ⟨p, hpm, hdom⟩ := parse_techniques_domain_mem _ _ ht t htm
      rcases fetch_attack_data_fst_mem o p hpm with ⟨h1, _⟩ | ⟨h1, _⟩ | ⟨h1, h2⟩
      · rw [hdom, h1]
        decide
      · rw [hdom, h1]
        decide
      · rw [hic] at h2
        cases h2
    · intro m hmm
      obtain ⟨p, hpm, hdom⟩ := parse_mitigations_domain_mem _ _ hm m hmm
      rcases fetch_attack_data_fst_mem o p hpm with ⟨h1, _⟩ | ⟨h1, _⟩ | ⟨h1, h2⟩
      · rw [hdom, h1]
        decide
      · rw [hdom, h1]
        decide
      · rw [hic] at h2
        cases h2

/-- Witness for C7 on a run whose pattern and optional sources failed. -/
theorem run_resilient_witness :
    (consolidatedOf oCapecFail [techWF] []).capec_patterns_count = 0
    ∧ (consolidatedOf oCapecFail [techWF] []).d3fend_available = false :=
  ⟨((run_resilient_to_source_failure oCapecFail [techWF] [] rfl rfl).2.1 rfl).2.1,
   (run_resilient_to_source_failure oCapecFail [techWF] [] rfl rfl).2.2.1 rfl⟩

/-- C10: the three sample lists of the consolidated document are exactly the
length-`min 10 n` leading parts of the corresponding full normalized lists,
and the full lists remain what the counts are taken over. -/
theorem sample_lists_take_ten (o : SourceOutcomes) (ts : List Technique)
    (ms : List Mitigation)
    (ht : parse_attack_techniques (fetch_attack_data o) = .ok ts)
    (hm : parse_attack_mitigations (fetch_attack_data o) = .ok ms) :
    generate_consolidated_mapping o = .ok (consolidatedOf o ts ms)
    ∧ (consolidatedOf o ts ms).sample_attack_techniques = ts.take 10
    ∧ (consolidatedOf o ts ms).sample_attack_mitigations = ms.take 10
    ∧ (consolidatedOf o ts ms).sample_capec_patterns =
        (parse_capec_patterns (fetch_capec_data o)).take 10
    ∧ (ts.take 10).length = min 10 ts.length
    ∧ (ms.take 10).length = min 10 ms.length
    ∧ ((parse_capec_patterns (fetch_capec_data o)).take 10).length =
        min 10 (parse_capec_patterns (fetch_capec_data o)).length
    ∧ ts.take 10 ++ ts.drop 10 = ts
    ∧ ms.take 10 ++ ms.drop 10 = ms
    ∧ (parse_capec_patterns (fetch_capec_data o)).take 10 ++
        (parse_capec_patterns (fetch_capec_data o)).drop 10 =
        parse_capec_patterns (fetch_capec_data o)
    ∧ (consolidatedOf o ts ms).attack_techniques_count = ts.length
    ∧ (consolidatedOf o ts ms).attack_mitigations_count = ms.length
    ∧ (consolidatedOf o ts ms).capec_patterns_count =
        (parse_capec_patterns (fetch_capec_data o)).length := by
  refine ⟨generate_consolidated_eq o ts ms ht hm, rfl, rfl, rfl, ?_, ?_, ?_, ?_, ?_, ?_,
    rfl, rfl, rfl⟩
  · simp
  · simp
  · simp
  · exact List.take_append_drop 10 ts
  · exact List.take_append_drop 10 ms
  · exact List.take_append_drop 10 (parse_capec_patterns (fetch_capec_data o))

/-- Witness for C10 on the small successful run. -/
theorem sample_lists_take_ten_witness :
    (consolidatedOf oSampleEx [techWF] []).sample_attack_techniques = [techWF].take 10 :=
  (sample_lists_take_ten oSampleEx [techWF] [] rfl rfl).2.1
